import Mathlib

/-!
Verification of the Plan Ingestion & Review Pipeline of the brief/plan backend.

The development shallowly embeds the Python source (`app/main.py`, `app/core/gcs.py`)
into Lean: worksheets are lists of rows of optional cell texts, the database is an
explicit record of briefs, plans and history entries, endpoint handlers are
functions returning `Except` (an exception maps to an HTTP error response), and
the object-store gateway is modelled over an abstract backend call trace.
-/

namespace BriefBackend

/-- A worksheet, as manipulated by openpyxl in `_process_excel_extract`:
a list of rows (1-based row index = position + 1), each row a list of cells
(1-based column index = position + 1). `none` is an empty/absent cell; a cell's
value (text, number or formula source) is carried as a string. -/
abbrev Worksheet := List (List (Option String))

/-- `ws.cell(row=r, column=c).value` for 1-based `r`, `c`: a cell outside the
stored rectangle reads as empty (openpyxl materialises empty cells on access). -/
def wsCell (ws : Worksheet) (r c : Nat) : Option String :=
  (((ws[r - 1]?).getD [])[c - 1]?).getD none

/-- Pad a row with empty cells so that column `c` (1-based) exists. -/
def padRow (row : List (Option String)) (c : Nat) : List (Option String) :=
  row ++ List.replicate (c - row.length) none

/-- Assignment `ws.cell(row=r, column=c).value = v` (1-based indices): openpyxl
creates the row and cell on demand. -/
def wsSetCell (ws : Worksheet) (r c : Nat) (v : String) : Worksheet :=
  let ws' := ws ++ List.replicate (r - ws.length) []
  ws'.set (r - 1) ((padRow ((ws'[r - 1]?).getD []) c).set (c - 1) (some v))

/-- `_process_excel_extract(local_in, local_out, header_row, mappings)` from
`app/main.py`: when `header_row > 1` it `move_range`s the block
`A{header_row}:{max_col}{max_row}` up by `header_row - 1` rows and deletes the
`header_row - 1` vacated trailing rows (together: dropping the first
`header_row - 1` rows), then for each `(col_idx, new_name)` mapping entry
overwrites the row-1 cell of column `col_idx + 1`. Local file I/O is elided:
the function maps the input workbook to the output workbook. -/
def processExcelExtract (ws : Worksheet) (headerRow : Int) (mappings : List (Nat × String)) : Worksheet :=
  let cropped := if headerRow > 1 then ws.drop (headerRow - 1).toNat else ws
  mappings.foldl (fun w p => wsSetCell w 1 (p.1 + 1) p.2) cropped

/-- One entry of the Senior API `mappings` / `unmapped_source_columns` arrays;
`confidence`, `match_type` and `reasoning` are never read downstream and are
therefore not carried. -/
structure MappingEntry where
  sourceColumn : String
  sourceColumnIndex : Nat
  targetField : String
deriving Repr, DecidableEq

/-- The Senior API `map-columns` response envelope as consumed by
`_transform_senior_api_response`; `dataStartRow` is `none` when the key is
absent (the Python code reads it with `.get("data_start_row", 0)`). -/
structure SeniorApiResponse where
  mappings : List MappingEntry
  unmappedSourceColumns : List MappingEntry
  dataStartRow : Option Int
deriving Repr, DecidableEq

/-- Python dict assignment `d[k] = v` on an insertion-ordered dict rendered as
an association list: an existing key keeps its position and gets the new value,
a new key is appended. -/
def dictInsert (d : List (Nat × String)) (k : Nat) (v : String) : List (Nat × String) :=
  if d.any (fun p => p.1 == k) then d.map (fun p => if p.1 == k then (k, v) else p)
  else d ++ [(k, v)]

/-- Result shape of `_transform_senior_api_response`. -/
structure TransformedResponse where
  headerRow : Int
  aiMappings : List (Nat × String)
deriving Repr, DecidableEq

/-- `_transform_senior_api_response(agent_resp)` from `app/main.py`: builds the
index→target dict from the `mappings` array only (unmapped columns are
deliberately skipped) and sets `header_row = agent_resp.get("data_start_row", 0) - 1`. -/
def transformSeniorApiResponse (resp : SeniorApiResponse) : TransformedResponse :=
  { headerRow := resp.dataStartRow.getD 0 - 1
    aiMappings := resp.mappings.foldl (fun d c => dictInsert d c.sourceColumnIndex c.targetField) [] }

/-- Last value assigned to key `k` by folding dict assignments over `m`
(the value an insertion-ordered dict built from `m` holds at `k`). -/
def lastVal (m : List (Nat × String)) (k : Nat) : Option String :=
  m.foldl (fun acc p => if p.1 = k then some p.2 else acc) none

/-- `_mock_senior_api_extract(gcs_path)` from `app/main.py`: the constant
`map-columns` response the backend currently uses in place of the Senior API
(the `file_id`/`file_path` echo and the per-entry confidence/match-type fields
are never read downstream and are not carried). -/
def mockSeniorApiExtract (_gcsPath : String) : SeniorApiResponse :=
  { mappings := [
      ⟨"prog_name.sony_sab", 0, "programme"⟩,
      ⟨"ch_name", 1, "channel_name"⟩,
      ⟨"day", 2, "day"⟩,
      ⟨"vlo.time", 3, "time"⟩,
      ⟨"avg.dur", 12, "average_duration"⟩,
      ⟨"week_1", 6, "week1"⟩,
      ⟨"spots", 11, "spots"⟩,
      ⟨"p1_p2.fct", 12, "fct"⟩,
      ⟨"gross.cost", 14, "gross.cost"⟩,
      ⟨"rate_10_secs", 15, "gross.rate"⟩,
      ⟨"nett.cost", 16, "nett.cost"⟩,
      ⟨"nett.rate_10_secs", 17, "nett.rate"⟩,
      ⟨"disp", 18, "disp"⟩,
      ⟨"as_per_brk_tvr_hsm.tvr", 19, "as_per_brk_tvr_hsm.tvr"⟩,
      ⟨"as_per_brk_tvr_hsm.grp", 20, "as_per_brk_tvr_hsm.grp"⟩,
      ⟨"as_per_brk_tvr_hsm.10_secs_grp", 21, "as_per_brk_tvr_hsm.10secgrp"⟩,
      ⟨"as_per_brk_tvr_hsm.cprp", 22, "as_per_brk_tvr_hsm.cprp"⟩,
      ⟨"hsm_market_details.aots", 23, "hsm_market_details.aots"⟩,
      ⟨"hsm_market_details.reach", 24, "hsm_market_details.reach"⟩,
      ⟨"hsm_market_details.cpt", 25, "hsm_market_details.cpt"⟩,
      ⟨"hsm_market_details.1", 26, "hsm_market_details.1"⟩,
      ⟨"hsm_market_details.2", 27, "hsm_market_details.2"⟩,
      ⟨"hsm_market_details.3", 28, "hsm_market_details.3"⟩,
      ⟨"hsm_market_details.4", 29, "hsm_market_details.4"⟩,
      ⟨"hsm_market_details.5", 30, "hsm_market_details.5"⟩,
      ⟨"as_per_brk_tvr_p1_market.tvr", 31, "as_per_brk_tvr_p1_market.tvr"⟩,
      ⟨"as_per_brk_tvr_p1_market.grp", 32, "as_per_brk_tvr_p1_market.grp"⟩,
      ⟨"as_per_brk_tvr_p1_market.10_secs_grp", 33, "as_per_brk_tvr_p1_market.10secgrp"⟩,
      ⟨"as_per_brk_tvr_p1_market.cprp", 34, "as_per_brk_tvr_p1_market.cprp"⟩]
    unmappedSourceColumns := [
      ⟨"advertiser_name", 4, ""⟩,
      ⟨"agency", 5, ""⟩,
      ⟨"wk_2", 7, ""⟩,
      ⟨"wk_3", 8, ""⟩,
      ⟨"wk_4", 9, ""⟩,
      ⟨"wk_5", 10, ""⟩]
    dataStartRow := some 5 }

-- ## Data model (Brief / AgencyPlan / HistoryTrail / actors)

/-- One `agency_plans` row, with the fields `app/main.py` reads or writes.
The SQLAlchemy declaration of `AgencyPlan` is not part of the checked-in
sources (the checked-in `models.py` predates it); the field set below is the
one `app/main.py` itself uses. -/
structure AgencyPlan where
  id : Nat
  briefId : Nat
  agencyId : String
  status : String
  versionNumber : Nat
  rawFilePath : Option String
  flatFilePath : Option String
  validatedColumnFilePath : Option String
  planFileUrl : Option String
  planFileName : Option String
  aiMappings : Option (List (Nat × String))
  humanMappings : Option (List (Nat × String))
  submittedAt : Option Nat
  createdBy : String
  updatedBy : String
  updatedAt : Nat
deriving Repr, DecidableEq

/-- One `briefs` row (status-relevant fields only; the campaign-description
columns are never read by the pipeline logic). Status defaults to `ACTIVE`. -/
structure Brief where
  id : Nat
  clientId : String
  status : String
  updatedBy : String
  updatedAt : Nat
deriving Repr, DecidableEq

/-- One `history_trail` row as created in `app/main.py` (server-assigned id and
timestamp elided; `db.history` keeps creation order). -/
structure HistoryEntry where
  agencyPlanId : Nat
  action : String
  userId : String
  details : String
  comment : Option String
deriving Repr, DecidableEq

/-- The authenticated actor context returned by `security.get_current_user`. -/
structure User where
  id : String
  role : String
  clientId : Option String
  agencyId : Option String
deriving Repr, DecidableEq

/-- The relational store: entity lists plus fresh-id counters standing in for
autoincrement keys. -/
structure DB where
  briefs : List Brief
  plans : List AgencyPlan
  history : List HistoryEntry
  agencies : List (String × String)
  nextBriefId : Nat
  nextPlanId : Nat
deriving Repr, DecidableEq

/-- An HTTP error response (`HTTPException` / handled `BriefAppException`). -/
structure HttpError where
  status : Nat
  detail : String
deriving Repr, DecidableEq

/-- External-world context of one request: the object-store contents, whether
the pending store upload and signed-URL issuance succeed, and the
mandatory/optional column lists `_get_schema_columns` reads from
`schemas_plan.yaml`. -/
structure Env where
  files : List (String × Worksheet)
  uploadOk : Bool
  signOk : Bool
  schemaMandatory : List String
  schemaOptional : List String
deriving Repr, DecidableEq

def Env.lookupFile (env : Env) (path : String) : Option Worksheet :=
  (env.files.find? (fun p => p.1 == path)).map (fun p => p.2)

def Env.putFile (env : Env) (path : String) (ws : Worksheet) : Env :=
  { env with files := (path, ws) :: env.files.filter (fun p => p.1 != path) }

/-- Default GCS bucket name (`GCS_BUCKET_NAME` unset). -/
def bucketName : String := "mediaflow-bucket"

/-- `brief_media_files/{brief_id}/{plan_id}/raw/plan.xlsx`. -/
def rawPathFor (briefId pid : Nat) : String :=
  "brief_media_files/" ++ toString briefId ++ "/" ++ toString pid ++ "/raw/plan.xlsx"

/-- Legacy raw path without the `brief_media_files` prefix. -/
def oldRawPathFor (briefId pid : Nat) : String :=
  toString briefId ++ "/" ++ toString pid ++ "/raw/plan.xlsx"

/-- `brief_media_files/{brief_id}/{plan_id}/flat/plan_flat.xlsx`. -/
def flatPathFor (briefId planId : Nat) : String :=
  "brief_media_files/" ++ toString briefId ++ "/" ++ toString planId ++ "/flat/plan_flat.xlsx"

/-- `brief_media_files/{brief_id}/{plan_id}/validated/plan_final.xlsx` — note
`validated`, not `validated-columns`. -/
def validatedPathFor (briefId pid : Nat) : String :=
  "brief_media_files/" ++ toString briefId ++ "/" ++ toString pid ++ "/validated/plan_final.xlsx"

/-- A successfully issued signed URL for a blob (opaque to all claims). -/
def signedUrlFor (path : String) : String := "https://signed.example/" ++ path

def updatePlan (db : DB) (pid : Nat) (f : AgencyPlan → AgencyPlan) : DB :=
  { db with plans := db.plans.map (fun p => if p.id == pid then f p else p) }

/-- The plan-ownership query repeated in the agency endpoints:
`id == plan_id AND brief_id == brief_id AND agency_id == current_user["agency_id"]`. -/
def findOwnedPlan (db : DB) (briefId planId : Nat) (user : User) : Option AgencyPlan :=
  db.plans.find? (fun p => p.id == planId && p.briefId == briefId && some p.agencyId == user.agencyId)

-- ## Endpoint handlers (`app/main.py`)

structure UploadUrlResponse where
  uploadUrl : String
  planId : Nat
  expiresIn : String
deriving Repr, DecidableEq

/-- `GET /briefs/{brief_id}/plans/{plan_id}/upload-url` (`get_upload_url`):
agency-only; resolves the owned plan, issues a signed PUT URL for the raw
blob path and persists that path on the plan. Nothing else on the plan is
touched and no history entry is written. -/
def get_upload_url (env : Env) (db : DB) (briefId planId : Nat) (user : User) :
    Except HttpError (DB × UploadUrlResponse) :=
  if user.role != "AGENCY" then
    .error ⟨403, "Only Agency users can access this."⟩
  else
    match findOwnedPlan db briefId planId user with
    | none => .error ⟨404, "Plan not found or access denied."⟩
    | some plan =>
      if !env.signOk then .error ⟨502, "Signed URL generation failed"⟩
      else
        .ok (updatePlan db plan.id
            (fun p => { p with rawFilePath := some (rawPathFor briefId plan.id) }),
          ⟨signedUrlFor (rawPathFor briefId plan.id), plan.id, "15 minutes"⟩)

structure ValidateColumnsResponse where
  flatFileUrl : String
  aiMappings : List (Nat × String)
  requiredColumns : List String
  optionalColumns : List String
deriving Repr, DecidableEq

/-- The raw-blob download of `extract_columns`: tries the `brief_media_files`
path (built from the `plan_id` route argument), then falls back to the legacy
un-prefixed path (built from `plan.id`); returns the blob name actually used
together with the workbook. -/
def downloadRawWithFallback (env : Env) (briefId planId pid : Nat) :
    Option (String × Worksheet) :=
  match env.lookupFile (rawPathFor briefId planId) with
  | some ws => some (rawPathFor briefId planId, ws)
  | none =>
    match env.lookupFile (oldRawPathFor briefId pid) with
    | some ws => some (oldRawPathFor briefId pid, ws)
    | none => none

/-- `GET /briefs/{brief_id}/plans/{plan_id}/extract-columns` (`extract_columns`):
agency-only; downloads the raw blob (trying the `brief_media_files` prefix,
then the legacy un-prefixed path), feeds it through the mock Senior API
adapter and the openpyxl transform, uploads the flat artifact, records
`flat_file_path` and `ai_mappings` on the plan, and returns the mapping
together with the schema's mandatory/optional column lists. No coverage check
against the mandatory list is performed and no history entry is written. -/
def extract_columns (env : Env) (db : DB) (briefId planId : Nat) (user : User) :
    Except HttpError (Env × DB × ValidateColumnsResponse) :=
  if user.role != "AGENCY" then
    .error ⟨403, "Only Agency users can access this."⟩
  else
    match findOwnedPlan db briefId planId user with
    | none => .error ⟨404, "Plan not found"⟩
    | some plan =>
      match downloadRawWithFallback env briefId planId plan.id with
      | none => .error ⟨404, "Raw file not found. Please upload first."⟩
      | some (rawBlob, rawWs) =>
        let transformed := transformSeniorApiResponse
          (mockSeniorApiExtract ("gs://" ++ bucketName ++ "/" ++ rawBlob))
        let flatWs := processExcelExtract rawWs transformed.headerRow transformed.aiMappings
        if !env.uploadOk then .error ⟨500, "Failed to upload flat file"⟩
        else if !env.signOk then .error ⟨502, "Signed URL generation failed"⟩
        else
          .ok (env.putFile (flatPathFor briefId planId) flatWs,
            updatePlan db plan.id (fun p =>
              { p with
                flatFilePath := some (flatPathFor briefId planId)
                aiMappings := some transformed.aiMappings }),
            ⟨signedUrlFor (flatPathFor briefId planId), transformed.aiMappings,
              env.schemaMandatory, env.schemaOptional⟩)

structure UpdateColumnsResponse where
  validatedFileUrl : String
  status : String
deriving Repr, DecidableEq

/-- `POST /briefs/{brief_id}/plans/{plan_id}/update-columns` (`update_columns`):
agency-only; merges `human_mappings` over the stored AI mapping (non-empty
values win per column index), re-downloads the *raw* blob, re-runs the
transform with `header_row = 4`, uploads the result to the
`.../validated/plan_final.xlsx` blob, records the merge inputs and paths on
the plan and appends one `COLUMNS_UPDATED` history entry. -/
def update_columns (env : Env) (db : DB) (briefId planId : Nat)
    (humanMappings : List (Nat × String)) (user : User) (now : Nat) :
    Except HttpError (Env × DB × UpdateColumnsResponse) :=
  if user.role != "AGENCY" then
    .error ⟨403, "Only Agency users can access this."⟩
  else
    match findOwnedPlan db briefId planId user with
    | none => .error ⟨404, "Plan not found."⟩
    | some plan =>
      match env.lookupFile (rawPathFor briefId plan.id) with
      | none => .error ⟨500, "Update failed: raw download failed"⟩
      | some rawWs =>
        let finalMappings := humanMappings.foldl
          (fun d p => if p.2 != "" then dictInsert d p.1 p.2 else d)
          (plan.aiMappings.getD [])
        if !env.uploadOk then .error ⟨500, "Update failed: upload failed"⟩
        else if !env.signOk then .error ⟨500, "Update failed: signed URL generation failed"⟩
        else
          let db' := updatePlan db plan.id (fun p =>
            { p with
              humanMappings := some humanMappings
              validatedColumnFilePath := some (validatedPathFor briefId plan.id)
              planFileUrl := some (validatedPathFor briefId plan.id)
              planFileName := some "plan_final.xlsx"
              updatedAt := now })
          .ok (env.putFile (validatedPathFor briefId plan.id)
              (processExcelExtract rawWs 4 finalMappings),
            { db' with history := db'.history ++
              [⟨plan.id, "COLUMNS_UPDATED", user.id,
                "User confirmed/updated column mappings. Final file generated.", none⟩] },
            ⟨signedUrlFor (validatedPathFor briefId plan.id), "success"⟩)

structure SubmitPlanRequest where
  comment : Option String
deriving Repr, DecidableEq

/-- `POST /briefs/{brief_id}/submit` (`submit_plan`): agency-only; resolves the
caller's first plan under the brief (by brief and agency alone — no plan id,
no status guard), sets it to `PENDING_REVIEW`, stamps `submitted_at`, and
appends one `PLAN_SUBMITTED` history entry whose detail is the caller's
comment when non-empty. -/
def submit_plan (db : DB) (briefId : Nat) (payload : SubmitPlanRequest) (user : User)
    (now : Nat) : Except HttpError (DB × String) :=
  if user.role != "AGENCY" then
    .error ⟨403, "Only Agency users can access this."⟩
  else
    match db.plans.find? (fun p => p.briefId == briefId && some p.agencyId == user.agencyId) with
    | none => .error ⟨404, "Plan slot not found"⟩
    | some plan =>
      let db' := updatePlan db plan.id (fun p =>
        { p with
          status := "PENDING_REVIEW"
          submittedAt := some now
          updatedAt := now
          updatedBy := user.id })
      let details :=
        match payload.comment with
        | some c => if c != "" then c else "Plan submitted for review."
        | none => "Plan submitted for review."
      let db'' := { db' with history := db'.history ++
        [⟨plan.id, "PLAN_SUBMITTED", user.id, details, none⟩] }
      .ok (db'', "PENDING_REVIEW")

/-- The `ReviewSubmissionRequest` body: `status` is
`Optional[Literal["APPROVED", "REJECTED"]]`, `comment` `Optional[str]`. -/
structure ReviewSubmissionRequest where
  status : Option String
  comment : Option String
deriving Repr, DecidableEq

/-- The pydantic model validator on `ReviewSubmissionRequest`: exactly one of
`status` / `comment` must be truthy (Python truthiness: `None` and `""` are
falsy), and `status`, when present, is one of the two literals. Requests
failing this never reach `review_plan`. -/
def reviewRequestWellFormed (r : ReviewSubmissionRequest) : Bool :=
  let truthy : Option String → Bool := fun o =>
    match o with
    | none => false
    | some s => s != ""
  (r.status == none || r.status == some "APPROVED" || r.status == some "REJECTED")
    && !(truthy r.status && truthy r.comment)
    && (truthy r.status || truthy r.comment)

structure ReviewResult where
  newPlanStatus : String
  newBriefStatus : Option String
deriving Repr, DecidableEq

/-- `POST /briefs/{brief_id}/plans/{plan_id}/review` (`review_plan`): DS_GROUP
may change status (recomputing the brief status over the brief's full plan
set), the owning agency may only comment; exactly one history entry is
appended, a `STATUS_CHANGE` entry recording the old→new status text. -/
def review_plan (db : DB) (briefId planId : Nat) (review : ReviewSubmissionRequest)
    (user : User) (now : Nat) : Except HttpError (DB × ReviewResult) :=
  match db.plans.find? (fun p => p.id == planId && p.briefId == briefId) with
  | none => .error ⟨404, "Plan not found"⟩
  | some plan =>
    let isDsGroup := user.role == "DS_GROUP"
    let isAgencyOwner := user.role == "AGENCY" && user.agencyId == some plan.agencyId
    if !(isDsGroup || isAgencyOwner) then
      .error ⟨403, "Forbidden: You cannot review/comment on this plan."⟩
    else if !isDsGroup && review.status.isSome then
      .error ⟨403, "Forbidden: Agency users cannot change plan status."⟩
    else
      let oldStatus := plan.status
      let newStatus := review.status.getD oldStatus
      let actionName := if review.status.isSome then "STATUS_CHANGE" else "COMMENT_ADDED"
      let detailsText :=
        if review.status.isSome then
          "Status changed from " ++ oldStatus ++ " to " ++ newStatus ++ "."
        else "A new comment was added to the plan history."
      let db1 := updatePlan db plan.id (fun p =>
        { p with status := newStatus, updatedAt := now, updatedBy := user.id })
      let db2 := { db1 with history := db1.history ++
        [⟨plan.id, actionName, user.id, detailsText, review.comment⟩] }
      if review.status.isSome && isDsGroup then
        match db2.briefs.find? (fun b => b.id == briefId) with
        | none => .ok (db2, ⟨newStatus, none⟩)
        | some brief =>
          let allPlans := db2.plans.filter (fun p => p.briefId == briefId)
          let approvedCount := (allPlans.filter (fun p => p.status == "APPROVED")).length
          let rejectedCount := (allPlans.filter (fun p => p.status == "REJECTED")).length
          let newBriefStatus :=
            if approvedCount == allPlans.length then "APPROVED"
            else if rejectedCount > 0 then "REJECTED"
            else brief.status
          let db3 := { db2 with briefs := db2.briefs.map (fun b =>
            if b.id == brief.id then
              { b with status := newBriefStatus, updatedAt := now, updatedBy := user.id }
            else b) }
          .ok (db3, ⟨newStatus, some newBriefStatus⟩)
      else .ok (db2, ⟨newStatus, none⟩)

structure BriefCreate where
  targetAgencyIds : List String
deriving Repr, DecidableEq

/-- `POST /briefs` (`create_brief`), restricted to the status-relevant effect:
DS_GROUP-only; creates the brief (status defaults to `ACTIVE`), then one
`DRAFT` plan slot per target agency id that exists in the agency table, each
with a `NEW_BRIEF_CREATED` history entry. -/
def create_brief (db : DB) (payload : BriefCreate) (user : User) (now : Nat) :
    Except HttpError (DB × Nat) :=
  if user.role != "DS_GROUP" then
    .error ⟨403, "Only DS Group (Admin) can access this."⟩
  else
    let briefId := db.nextBriefId
    let brief : Brief :=
      { id := briefId
        clientId := user.clientId.getD ""
        status := "ACTIVE"
        updatedBy := user.id
        updatedAt := now }
    let db0 := { db with briefs := db.briefs ++ [brief], nextBriefId := briefId + 1 }
    let dbFinal := payload.targetAgencyIds.foldl (fun acc targetId =>
      match acc.agencies.find? (fun a => a.1 == targetId) with
      | none => acc
      | some agency =>
        let pid := acc.nextPlanId
        let newPlan : AgencyPlan :=
          { id := pid
            briefId := briefId
            agencyId := agency.1
            status := "DRAFT"
            versionNumber := 1
            rawFilePath := none
            flatFilePath := none
            validatedColumnFilePath := none
            planFileUrl := none
            planFileName := none
            aiMappings := none
            humanMappings := none
            submittedAt := none
            createdBy := user.id
            updatedBy := user.id
            updatedAt := now }
        { acc with
          plans := acc.plans ++ [newPlan]
          nextPlanId := pid + 1
          history := acc.history ++
            [⟨pid, "NEW_BRIEF_CREATED", user.id,
              "The brief was created and assigned to " ++ agency.2 ++ ".", none⟩] }) db0
    .ok (dbFinal, briefId)

-- ## Plan-pipeline step relation and reachable states

/-- One successful mutating request against the pipeline, relating the store
before and after (external context, actor, clock and payloads arbitrary). -/
inductive Step : DB → DB → Prop where
  | createBrief {db db' : DB} {payload user now bid}
      (hop : create_brief db payload user now = .ok (db', bid)) : Step db db'
  | uploadUrl {env db db' briefId planId user r}
      (hop : get_upload_url env db briefId planId user = .ok (db', r)) : Step db db'
  | extractCols {env env' db db' briefId planId user r}
      (hop : extract_columns env db briefId planId user = .ok (env', db', r)) : Step db db'
  | updateCols {env env' db db' briefId planId hm user now r}
      (hop : update_columns env db briefId planId hm user now = .ok (env', db', r)) :
      Step db db'
  | submit {db db' briefId payload user now r}
      (hop : submit_plan db briefId payload user now = .ok (db', r)) : Step db db'
  | review {db db' briefId planId rev user now r}
      (hwf : reviewRequestWellFormed rev = true)
      (hop : review_plan db briefId planId rev user now = .ok (db', r)) : Step db db'

/-- An empty store (arbitrary agency directory, counters at 1). -/
def initDB (agencies : List (String × String)) : DB :=
  { briefs := []
    plans := []
    history := []
    agencies := agencies
    nextBriefId := 1
    nextPlanId := 1 }

/-- Stores reachable from an empty store by successful pipeline requests. -/
inductive Reachable : DB → Prop where
  | init (agencies : List (String × String)) : Reachable (initDB agencies)
  | step {db db' : DB} (h : Reachable db) (hs : Step db db') : Reachable db'

-- ## Object Store Gateway (`app/core/gcs.py`)

/-- The process-wide gateway state: the lazily initialised storage client
(`_storage_client`, `none` when initialisation failed) and how many calls have
been made so far against the underlying storage/signing backend. -/
structure GcsState where
  client : Option Unit
  calls : Nat
deriving Repr, DecidableEq

/-- The underlying storage/signing backend as a call trace: the outcome of the
n-th backend call the process makes (`.ok payload` or a raised transport or
permission error carrying its message). -/
abbrev Backend := Nat → Except String String

/-- Message of the `GCSOperationError` raised by `_get_bucket` when the client
is uninitialised. -/
def gcsErrNotInit : String := "GCS Client not initialized. Check credentials."

namespace Gcs

/-- `gcs.upload_file`: one backend call; any exception is re-raised as
`GCSOperationError("Upload failed: " + message)` (the `.error` constructor
stands for `GCSOperationError`). -/
def upload_file (st : GcsState) (backend : Backend) : Except String String × GcsState :=
  match st.client with
  | none => (.error ("Upload failed: " ++ gcsErrNotInit), st)
  | some _ =>
    match backend st.calls with
    | .ok r => (.ok r, { st with calls := st.calls + 1 })
    | .error e => (.error ("Upload failed: " ++ e), { st with calls := st.calls + 1 })

/-- `gcs.download_file`: as `upload_file` with the `Download failed` prefix. -/
def download_file (st : GcsState) (backend : Backend) : Except String String × GcsState :=
  match st.client with
  | none => (.error ("Download failed: " ++ gcsErrNotInit), st)
  | some _ =>
    match backend st.calls with
    | .ok r => (.ok r, { st with calls := st.calls + 1 })
    | .error e => (.error ("Download failed: " ++ e), { st with calls := st.calls + 1 })

/-- `gcs.read_file`: as `upload_file` with the `Read file failed` prefix. -/
def read_file (st : GcsState) (backend : Backend) : Except String String × GcsState :=
  match st.client with
  | none => (.error ("Read file failed: " ++ gcsErrNotInit), st)
  | some _ =>
    match backend st.calls with
    | .ok r => (.ok r, { st with calls := st.calls + 1 })
    | .error e => (.error ("Read file failed: " ++ e), { st with calls := st.calls + 1 })

/-- `gcs.list_blobs`: as `upload_file` with the `List blobs failed` prefix. -/
def list_blobs (st : GcsState) (backend : Backend) : Except String String × GcsState :=
  match st.client with
  | none => (.error ("List blobs failed: " ++ gcsErrNotInit), st)
  | some _ =>
    match backend st.calls with
    | .ok r => (.ok r, { st with calls := st.calls + 1 })
    | .error e => (.error ("List blobs failed: " ++ e), { st with calls := st.calls + 1 })

/-- `gcs.delete_blob`: as `upload_file` with the `Delete blob failed` prefix. -/
def delete_blob (st : GcsState) (backend : Backend) : Except String String × GcsState :=
  match st.client with
  | none => (.error ("Delete blob failed: " ++ gcsErrNotInit), st)
  | some _ =>
    match backend st.calls with
    | .ok r => (.ok r, { st with calls := st.calls + 1 })
    | .error e => (.error ("Delete blob failed: " ++ e), { st with calls := st.calls + 1 })

/-- `gcs.get_signed_url`: with no storage client it returns a mock unsigned
URL as a *successful* result; otherwise, when a service-account email was
discovered and `GOOGLE_APPLICATION_CREDENTIALS` is unset it first tries the
IAM signer and falls back to default signing on failure (a second backend
call), and only a default-path failure is raised as
`GCSOperationError("Signed URL generation failed: " + message)`. -/
def get_signed_url (st : GcsState) (blobName : String) (saEmail : Option String)
    (hasCredsEnv : Bool) (backend : Backend) : Except String String × GcsState :=
  match st.client with
  | none =>
    (.ok ("https://storage.googleapis.com/" ++ bucketName ++ "/" ++ blobName ++ "?mock_sig=true"),
      st)
  | some _ =>
    if saEmail.isSome && !hasCredsEnv then
      match backend st.calls with
      | .ok url => (.ok url, { st with calls := st.calls + 1 })
      | .error _ =>
        match backend (st.calls + 1) with
        | .ok url => (.ok url, { st with calls := st.calls + 2 })
        | .error e => (.error ("Signed URL generation failed: " ++ e),
            { st with calls := st.calls + 2 })
    else
      match backend st.calls with
      | .ok url => (.ok url, { st with calls := st.calls + 1 })
      | .error e => (.error ("Signed URL generation failed: " ++ e),
          { st with calls := st.calls + 1 })

end Gcs

deriving instance DecidableEq for Except

-- ## Claim-statement predicates and concrete fixtures

/-- Modelled from the spec (used only to state claims): the mandatory target
fields absent from the mapped-column set. -/
def spec_missingMandatory (mandatory : List String) (mapped : List (Nat × String)) : List String :=
  mandatory.filter (fun c => !(mapped.any (fun p => p.2 == c)))

/-- The C5 claim predicate, as the spec states it: a brief is APPROVED iff all
its plans are, and REJECTED iff some plan is REJECTED and not all are
APPROVED. -/
def briefPlanInvariant (db : DB) : Prop :=
  ∀ b ∈ db.briefs,
    ((b.status = "APPROVED") ↔ ∀ p ∈ db.plans, p.briefId = b.id → p.status = "APPROVED") ∧
    ((b.status = "REJECTED") ↔
      ((∃ p ∈ db.plans, p.briefId = b.id ∧ p.status = "REJECTED") ∧
        ¬ ∀ p ∈ db.plans, p.briefId = b.id → p.status = "APPROVED"))

instance (db : DB) : Decidable (briefPlanInvariant db) := by
  unfold briefPlanInvariant
  infer_instance

def agencyDir : List (String × String) := [("agA", "Agency Alpha"), ("agB", "Agency Beta")]

def dsUser : User := ⟨"u-ds", "DS_GROUP", some "client-1", none⟩

def agAUser : User := ⟨"u-a", "AGENCY", none, some "agA"⟩

/-- A plan that already carries all downstream artifacts and mappings. -/
def cxPlanWithArtifacts : AgencyPlan :=
  { id := 1
    briefId := 1
    agencyId := "agA"
    status := "DRAFT"
    versionNumber := 1
    rawFilePath := some (rawPathFor 1 1)
    flatFilePath := some (flatPathFor 1 1)
    validatedColumnFilePath := some (validatedPathFor 1 1)
    planFileUrl := none
    planFileName := none
    aiMappings := some [(0, "programme")]
    humanMappings := some [(0, "programme")]
    submittedAt := none
    createdBy := "u-a"
    updatedBy := "u-a"
    updatedAt := 0 }

def cxDB1 : DB :=
  { briefs := [⟨1, "client-1", "ACTIVE", "u-ds", 0⟩]
    plans := [cxPlanWithArtifacts]
    history := []
    agencies := agencyDir
    nextBriefId := 2
    nextPlanId := 2 }

/-- A raw workbook: three preamble rows, the header in row 4, data in row 5. -/
def cxRawWs : Worksheet :=
  [[some "title"], [], [some "note"],
   [some "prog_name.sony_sab", some "ch_name"],
   [some "Show A", some "Sony SAB"]]

def happyEnv : Env :=
  { files := [(rawPathFor 1 1, cxRawWs)]
    uploadOk := true
    signOk := true
    schemaMandatory := ["Date", "Channel", "Impressions", "Cost"]
    schemaOptional := ["Remarks"] }

def c1ResultDB : DB :=
  match get_upload_url happyEnv cxDB1 1 1 agAUser with
  | .ok (d, _) => d
  | .error _ => cxDB1

def c1ResultResp : UploadUrlResponse :=
  match get_upload_url happyEnv cxDB1 1 1 agAUser with
  | .ok (_, r) => r
  | .error _ => ⟨"", 0, ""⟩

def c5brief : BriefCreate := ⟨["agA", "agB"]⟩

def c5db1 : DB :=
  match create_brief (initDB agencyDir) c5brief dsUser 0 with
  | .ok (d, _) => d
  | .error _ => initDB agencyDir

def revReject : ReviewSubmissionRequest := ⟨some "REJECTED", none⟩

def revApprove : ReviewSubmissionRequest := ⟨some "APPROVED", none⟩

def c5db2 : DB :=
  match review_plan c5db1 1 1 revReject dsUser 1 with
  | .ok (d, _) => d
  | .error _ => c5db1

def c5db3 : DB :=
  match review_plan c5db2 1 1 revApprove dsUser 2 with
  | .ok (d, _) => d
  | .error _ => c5db2

/-- The brief row of `c5db2` (status `REJECTED` after the first review). -/
def c5briefAfterReject : Brief :=
  match c5db2.briefs.find? (fun b => b.id == 1) with
  | some b => b
  | none => ⟨0, "", "", "", 0⟩

def c6db2 : DB :=
  match review_plan c5db1 1 1 revApprove dsUser 1 with
  | .ok (d, _) => d
  | .error _ => c5db1

def c6db3 : DB :=
  match submit_plan c6db2 1 ⟨none⟩ agAUser 2 with
  | .ok (d, _) => d
  | .error _ => c6db2

def c8Hm : List (Nat × String) := [(1, "channel_name")]

def c8ResultEnv : Env :=
  match update_columns happyEnv cxDB1 1 1 c8Hm agAUser 5 with
  | .ok (e, _, _) => e
  | .error _ => happyEnv

def c8ResultDB : DB :=
  match update_columns happyEnv cxDB1 1 1 c8Hm agAUser 5 with
  | .ok (_, d, _) => d
  | .error _ => cxDB1

def c8ResultResp : UpdateColumnsResponse :=
  match update_columns happyEnv cxDB1 1 1 c8Hm agAUser 5 with
  | .ok (_, _, r) => r
  | .error _ => ⟨"", ""⟩

def c10rev : ReviewSubmissionRequest := ⟨none, some "looks good"⟩

def c10ResultDB : DB :=
  match review_plan cxDB1 1 1 c10rev agAUser 7 with
  | .ok (d, _) => d
  | .error _ => cxDB1

def c10ResultRes : ReviewResult :=
  match review_plan cxDB1 1 1 c10rev agAUser 7 with
  | .ok (_, r) => r
  | .error _ => ⟨"", none⟩

-- ## Basic worksheet lemmas

theorem lastVal_eq_or (m : List (Nat × String)) (k : Nat) (a : Option String) :
    m.foldl (fun acc p => if p.1 = k then some p.2 else acc) a = (lastVal m k).or a := by
  induction m generalizing a with
  | nil => simp [lastVal]
  | cons p t ih =>
    show List.foldl _ (if p.1 = k then some p.2 else a) t = (lastVal (p :: t) k).or a
    have hcons : lastVal (p :: t) k =
        List.foldl (fun acc q => if q.1 = k then some q.2 else acc)
          (if p.1 = k then some p.2 else none) t := rfl
    rw [ih, hcons, ih (if p.1 = k then some p.2 else none)]
    cases hX : lastVal t k <;> by_cases hp : p.1 = k <;> simp [hp]

theorem extendRows_row (ws : Worksheet) (r i : Nat) :
    (((ws ++ List.replicate (r - ws.length) ([] : List (Option String)))[i]?).getD [])
      = (ws[i]?).getD [] := by
  by_cases h : i < ws.length
  · rw [List.getElem?_append_left h]
  · rw [List.getElem?_eq_none (l := ws) (by omega)]
    by_cases h2 : i < ws.length + (r - ws.length)
    · rw [List.getElem?_append_right (by omega), List.getElem?_replicate]
      by_cases h3 : i - ws.length < r - ws.length <;> simp [h3]
    · rw [List.getElem?_eq_none (l := ws ++ List.replicate (r - ws.length) []) (by
        simp only [List.length_append, List.length_replicate]
        omega)]

theorem padRow_get (row : List (Option String)) (c j : Nat) :
    (((padRow row c)[j]?).getD none) = ((row[j]?).getD none) := by
  unfold padRow
  by_cases h : j < row.length
  · rw [List.getElem?_append_left h]
  · rw [List.getElem?_eq_none (l := row) (by omega),
      List.getElem?_append_right (by omega), List.getElem?_replicate]
    by_cases h3 : j - row.length < c - row.length <;> simp [h3]

theorem wsSetCell_cell (ws : Worksheet) (r c : Nat) (v : String) (r' c' : Nat)
    (hr : 1 ≤ r) (hc : 1 ≤ c) (hr' : 1 ≤ r') (hc' : 1 ≤ c') :
    wsCell (wsSetCell ws r c v) r' c' =
      if r' = r ∧ c' = c then some v else wsCell ws r' c' := by
  unfold wsCell wsSetCell
  simp only []
  by_cases hrr : r' = r
  · subst hrr
    rw [List.getElem?_set_self (by
      simp only [List.length_append, List.length_replicate]
      omega)]
    simp only [Option.getD_some]
    by_cases hcc : c' = c
    · subst hcc
      rw [List.getElem?_set_self (by
        unfold padRow
        simp only [List.length_append, List.length_replicate]
        omega)]
      simp
    · rw [List.getElem?_set_ne (by omega)]
      rw [padRow_get, extendRows_row]
      simp [hcc]
  · rw [List.getElem?_set_ne (by omega)]
    rw [extendRows_row]
    simp [hrr]

theorem getElem?_drop_own {α : Type} (l : List α) (n m : Nat) : (l.drop n)[m]? = l[n + m]? := by
  induction n generalizing l with
  | zero => simp
  | succ k ih =>
    cases l with
    | nil => simp
    | cons a t =>
      simp only [List.drop_succ_cons]
      rw [ih]
      simp [Nat.succ_add]

theorem drop_wsCell (ws : Worksheet) (n r c : Nat) (hr : 1 ≤ r) :
    wsCell (ws.drop n) r c = wsCell ws (r + n) c := by
  unfold wsCell
  have h : (ws.drop n)[r - 1]? = ws[r + n - 1]? := by
    rw [getElem?_drop_own]
    congr 1
    omega
  rw [h]

theorem wsSetCell_length (ws : Worksheet) (c : Nat) (v : String) (hw : 1 ≤ ws.length) :
    (wsSetCell ws 1 c v).length = ws.length := by
  unfold wsSetCell
  simp only [List.length_set, List.length_append, List.length_replicate]
  omega

theorem renameRow1_length (m : List (Nat × String)) (w : Worksheet) (hw : 1 ≤ w.length) :
    (m.foldl (fun w p => wsSetCell w 1 (p.1 + 1) p.2) w).length = w.length := by
  induction m generalizing w with
  | nil => rfl
  | cons p t ih =>
    simp only [List.foldl_cons]
    rw [ih (wsSetCell w 1 (p.1 + 1) p.2) (by rw [wsSetCell_length w _ _ hw]; omega),
      wsSetCell_length w _ _ hw]

theorem renameRow1_cell (m : List (Nat × String)) (w : Worksheet) (r c : Nat)
    (hr : 1 ≤ r) (hc : 1 ≤ c) :
    wsCell (m.foldl (fun w p => wsSetCell w 1 (p.1 + 1) p.2) w) r c =
      if r = 1 then (lastVal m (c - 1)).or (wsCell w 1 c) else wsCell w r c := by
  induction m generalizing w with
  | nil => by_cases hr1 : r = 1 <;> simp [lastVal, hr1]
  | cons p t ih =>
    simp only [List.foldl_cons]
    rw [ih (wsSetCell w 1 (p.1 + 1) p.2)]
    have hlv : lastVal (p :: t) (c - 1) =
        (lastVal t (c - 1)).or (if p.1 = c - 1 then some p.2 else none) := by
      show List.foldl _ (if p.1 = c - 1 then some p.2 else none) t = _
      rw [lastVal_eq_or]
    by_cases hr1 : r = 1
    · subst hr1
      simp only [if_pos rfl]
      rw [wsSetCell_cell w 1 (p.1 + 1) p.2 1 c (by omega) (by omega) (by omega) hc, hlv]
      have hcp : (1 = 1 ∧ c = p.1 + 1) ↔ (p.1 = c - 1) := by
        constructor
        · rintro ⟨-, h⟩; omega
        · intro h; exact ⟨rfl, by omega⟩
      have hc1 : c - 1 + 1 = c := by omega
      by_cases hp : p.1 = c - 1
      · cases hX : lastVal t (c - 1) <;> simp [hX, hp, hc1]
      · have hne : ¬(c = p.1 + 1) := by omega
        cases hX : lastVal t (c - 1) <;> simp [hX, hp, hne]
    · simp only [if_neg hr1]
      rw [wsSetCell_cell w 1 (p.1 + 1) p.2 r c (by omega) (by omega) hr hc]
      simp [hr1]

/-- C4: the spreadsheet transform with `header_row > 1` and
`header_row ≤ max_row` moves rows `[header_row, max_row]` up by
`header_row − 1` rows (the header lands in row 1, every moved cell keeps its
content relative to the block), removes the `header_row − 1` vacated trailing
rows, then overwrites the row-1 cell of each column index present in the
mapping with its (dict-semantics last) new name, while columns absent from the
mapping keep the shifted header text in row 1. -/
theorem C4_process_excel_extract (ws : Worksheet) (headerRow : Int) (m : List (Nat × String))
    (h1 : 1 < headerRow) (h2 : headerRow.toNat ≤ ws.length) :
    (processExcelExtract ws headerRow m).length = ws.length - (headerRow.toNat - 1)
    ∧ (∀ r c, 2 ≤ r → 1 ≤ c →
        wsCell (processExcelExtract ws headerRow m) r c = wsCell ws (r + (headerRow.toNat - 1)) c)
    ∧ (∀ c, 1 ≤ c →
        wsCell (processExcelExtract ws headerRow m) 1 c =
          (lastVal m (c - 1)).or (wsCell ws headerRow.toNat c)) := by
  have hoff : (headerRow - 1).toNat = headerRow.toNat - 1 := by omega
  have hcrop : processExcelExtract ws headerRow m =
      m.foldl (fun w p => wsSetCell w 1 (p.1 + 1) p.2) (ws.drop (headerRow.toNat - 1)) := by
    unfold processExcelExtract
    rw [if_pos h1, hoff]
  have hlen : (ws.drop (headerRow.toNat - 1)).length = ws.length - (headerRow.toNat - 1) := by
    simp [List.length_drop]
  refine ⟨?_, ?_, ?_⟩
  · rw [hcrop, renameRow1_length _ _ (by omega), hlen]
  · intro r c hr hc
    rw [hcrop, renameRow1_cell _ _ r c (by omega) hc, if_neg (by omega),
      drop_wsCell _ _ _ _ (by omega)]
  · intro c hc
    rw [hcrop, renameRow1_cell _ _ 1 c (by omega) hc, if_pos rfl,
      drop_wsCell _ _ _ _ (by omega)]
    have : 1 + (headerRow.toNat - 1) = headerRow.toNat := by omega
    rw [this]

/-- Witness for C4 at a concrete workbook: 3 rows, header in row 2, one mapped
column; the mapped column is renamed, a data cell moves up by one row. -/
theorem C4_process_excel_extract_witness :
    wsCell (processExcelExtract
        [[some "junk"], [some "hdr", some "hdr2"], [some "d1", some "d2"]] 2 [(0, "programme")])
      2 2 =
      wsCell [[some "junk"], [some "hdr", some "hdr2"], [some "d1", some "d2"]] 3 2 :=
  (C4_process_excel_extract
      [[some "junk"], [some "hdr", some "hdr2"], [some "d1", some "d2"]] 2 [(0, "programme")]
      (by decide) (by decide)).2.1 2 2 (by decide) (by decide)

/-- C3 counterexample: the adapter computes `header_row = data_start_row − 1`
with no lower clamp, so `data_start_row = 1` yields `header_row = 0`, not
`max(1, 0) = 1` as the claim states. -/
theorem C3_counterexample :
    (transformSeniorApiResponse ⟨[], [], some 1⟩).headerRow ≠ max 1 ((1 : Int) - 1) := by
  decide

/-- C3 (amended): the adapter computes `header_row = data_start_row − 1`
unclamped; whenever `data_start_row ≥ 2` this coincides with
`max(1, data_start_row − 1)`, and `data_start_row = 5` yields `header_row = 4`. -/
theorem C3_header_row (resp : SeniorApiResponse) (dsr : Int) (h : resp.dataStartRow = some dsr) :
    (transformSeniorApiResponse resp).headerRow = dsr - 1 ∧
      (2 ≤ dsr → (transformSeniorApiResponse resp).headerRow = max 1 (dsr - 1)) := by
  have hh : (transformSeniorApiResponse resp).headerRow = dsr - 1 := by
    unfold transformSeniorApiResponse
    rw [h]
    rfl
  exact ⟨hh, fun h2 => by
    rw [hh, max_eq_right (by omega : (1 : Int) ≤ dsr - 1)]⟩

/-- Witness for C3 at `data_start_row = 5`: `header_row = 4 = max(1, 4)`. -/
theorem C3_header_row_witness :
    (transformSeniorApiResponse ⟨[], [], some 5⟩).headerRow = 5 - 1 ∧
      (2 ≤ (5 : Int) → (transformSeniorApiResponse ⟨[], [], some 5⟩).headerRow = max 1 (5 - 1)) :=
  C3_header_row ⟨[], [], some 5⟩ 5 rfl

-- ## Inversion lemmas: what a successful request implies

theorem get_upload_url_ok_inv {env db briefId planId user db' r}
    (h : get_upload_url env db briefId planId user = .ok (db', r)) :
    ∃ plan, findOwnedPlan db briefId planId user = some plan ∧
      db' = updatePlan db plan.id
        (fun p => { p with rawFilePath := some (rawPathFor briefId plan.id) }) ∧
      r = ⟨signedUrlFor (rawPathFor briefId plan.id), plan.id, "15 minutes"⟩ := by
  unfold get_upload_url at h
  split at h
  · cases h
  · split at h
    · cases h
    · rename_i plan hfind
      split at h
      · cases h
      · refine ⟨plan, hfind, ?_, ?_⟩
        · exact (by cases h; rfl)
        · exact (by cases h; rfl)

theorem downloadRawWithFallback_lookup {env : Env} {briefId planId pid : Nat}
    {b : String} {ws : Worksheet}
    (h : downloadRawWithFallback env briefId planId pid = some (b, ws)) :
    env.lookupFile b = some ws := by
  unfold downloadRawWithFallback at h
  cases hnew : env.lookupFile (rawPathFor briefId planId) with
  | some w => rw [hnew] at h; cases h; exact hnew
  | none =>
    rw [hnew] at h
    cases hold : env.lookupFile (oldRawPathFor briefId pid) with
    | some w => rw [hold] at h; cases h; exact hold
    | none => rw [hold] at h; cases h

theorem extract_columns_ok_inv {env db briefId planId user env' db' r}
    (h : extract_columns env db briefId planId user = .ok (env', db', r)) :
    ∃ plan rawBlob rawWs,
      findOwnedPlan db briefId planId user = some plan ∧
      downloadRawWithFallback env briefId planId plan.id = some (rawBlob, rawWs) ∧
      env.lookupFile rawBlob = some rawWs ∧
      (let transformed := transformSeniorApiResponse
        (mockSeniorApiExtract ("gs://" ++ bucketName ++ "/" ++ rawBlob))
       env' = env.putFile (flatPathFor briefId planId)
         (processExcelExtract rawWs transformed.headerRow transformed.aiMappings) ∧
       db' = updatePlan db plan.id (fun p =>
         { p with
           flatFilePath := some (flatPathFor briefId planId)
           aiMappings := some transformed.aiMappings }) ∧
       r = ⟨signedUrlFor (flatPathFor briefId planId), transformed.aiMappings,
            env.schemaMandatory, env.schemaOptional⟩) := by
  unfold extract_columns at h
  by_cases hrole : (user.role != "AGENCY") = true
  · rw [if_pos hrole] at h; cases h
  · rw [if_neg hrole] at h
    cases hfind : findOwnedPlan db briefId planId user with
    | none => rw [hfind] at h; cases h
    | some plan =>
      rw [hfind] at h
      dsimp only [] at h
      cases hatt : downloadRawWithFallback env briefId planId plan.id with
      | none => rw [hatt] at h; cases h
      | some pair =>
        obtain ⟨rawBlob, rawWs⟩ := pair
        rw [hatt] at h
        dsimp only [] at h
        by_cases hup : (!env.uploadOk) = true
        · rw [if_pos hup] at h; cases h
        · rw [if_neg hup] at h
          by_cases hsign : (!env.signOk) = true
          · rw [if_pos hsign] at h; cases h
          · rw [if_neg hsign] at h
            cases h
            exact ⟨plan, rawBlob, rawWs, rfl, hatt,
              downloadRawWithFallback_lookup hatt, rfl, rfl, rfl⟩

theorem update_columns_ok_inv {env db briefId planId hm user now env' db' r}
    (h : update_columns env db briefId planId hm user now = .ok (env', db', r)) :
    ∃ plan rawWs,
      findOwnedPlan db briefId planId user = some plan ∧
      env.lookupFile (rawPathFor briefId plan.id) = some rawWs ∧
      (let merged := hm.foldl (fun d p => if p.2 != "" then dictInsert d p.1 p.2 else d)
        (plan.aiMappings.getD [])
       let db1 := updatePlan db plan.id (fun p =>
         { p with
           humanMappings := some hm
           validatedColumnFilePath := some (validatedPathFor briefId plan.id)
           planFileUrl := some (validatedPathFor briefId plan.id)
           planFileName := some "plan_final.xlsx"
           updatedAt := now })
       env' = env.putFile (validatedPathFor briefId plan.id)
         (processExcelExtract rawWs 4 merged) ∧
       db' = { db1 with history := db1.history ++
         [⟨plan.id, "COLUMNS_UPDATED", user.id,
           "User confirmed/updated column mappings. Final file generated.", none⟩] } ∧
       r = ⟨signedUrlFor (validatedPathFor briefId plan.id), "success"⟩) := by
  unfold update_columns at h
  by_cases hrole : (user.role != "AGENCY") = true
  · rw [if_pos hrole] at h; cases h
  · rw [if_neg hrole] at h
    cases hfind : findOwnedPlan db briefId planId user with
    | none => rw [hfind] at h; cases h
    | some plan =>
      rw [hfind] at h
      dsimp only [] at h
      cases hraw : env.lookupFile (rawPathFor briefId plan.id) with
      | none => rw [hraw] at h; cases h
      | some rawWs =>
        rw [hraw] at h
        dsimp only [] at h
        by_cases hup : (!env.uploadOk) = true
        · rw [if_pos hup] at h; cases h
        · rw [if_neg hup] at h
          by_cases hsign : (!env.signOk) = true
          · rw [if_pos hsign] at h; cases h
          · rw [if_neg hsign] at h
            cases h
            exact ⟨plan, rawWs, rfl, hraw, rfl, rfl, rfl⟩

theorem submit_plan_ok_inv {db briefId payload user now db' r}
    (h : submit_plan db briefId payload user now = .ok (db', r)) :
    ∃ plan,
      db.plans.find? (fun p => p.briefId == briefId && some p.agencyId == user.agencyId)
        = some plan ∧
      (let db1 := updatePlan db plan.id (fun p =>
        { p with
          status := "PENDING_REVIEW"
          submittedAt := some now
          updatedAt := now
          updatedBy := user.id })
       let details :=
        match payload.comment with
        | some c => if c != "" then c else "Plan submitted for review."
        | none => "Plan submitted for review."
       db' = { db1 with history := db1.history ++
         [⟨plan.id, "PLAN_SUBMITTED", user.id, details, none⟩] } ∧
       r = "PENDING_REVIEW") := by
  unfold submit_plan at h
  by_cases hrole : (user.role != "AGENCY") = true
  · rw [if_pos hrole] at h; cases h
  · rw [if_neg hrole] at h
    cases hfind : db.plans.find?
        (fun p => p.briefId == briefId && some p.agencyId == user.agencyId) with
    | none => rw [hfind] at h; cases h
    | some plan =>
      rw [hfind] at h
      dsimp only [] at h
      cases h
      exact ⟨plan, rfl, rfl, rfl⟩

theorem review_plan_comment_only_inv {db briefId planId rev user now db' res}
    (h : review_plan db briefId planId rev user now = .ok (db', res))
    (hst : rev.status = none) :
    ∃ plan,
      db.plans.find? (fun p => p.id == planId && p.briefId == briefId) = some plan ∧
      db' = { db with
        plans := db.plans.map (fun p =>
          if p.id == plan.id then
            { p with status := plan.status, updatedAt := now, updatedBy := user.id }
          else p)
        history := db.history ++
          [⟨plan.id, "COMMENT_ADDED", user.id,
            "A new comment was added to the plan history.", rev.comment⟩] } ∧
      res = ⟨plan.status, none⟩ := by
  unfold review_plan at h
  cases hfind : db.plans.find? (fun p => p.id == planId && p.briefId == briefId) with
  | none => rw [hfind] at h; cases h
  | some plan =>
    rw [hfind] at h
    dsimp only [] at h
    rw [hst] at h
    simp only [Option.isSome_none, Bool.and_false, Option.getD_none] at h
    by_cases hperm : (!(user.role == "DS_GROUP"
        || user.role == "AGENCY" && user.agencyId == some plan.agencyId)) = true
    · rw [if_pos hperm] at h; cases h
    · rw [if_neg hperm] at h
      simp only [Bool.false_and, Bool.false_eq_true, if_false, Bool.and_false] at h
      cases h
      exact ⟨plan, rfl, rfl, rfl⟩

theorem review_plan_status_change_inv {db : DB} {briefId planId : Nat}
    {rev : ReviewSubmissionRequest} {user : User} {now : Nat} {db' : DB}
    {res : ReviewResult} {s : String}
    (h : review_plan db briefId planId rev user now = .ok (db', res))
    (hst : rev.status = some s) (hds : user.role = "DS_GROUP") :
    ∃ plan,
      db.plans.find? (fun p => p.id == planId && p.briefId == briefId) = some plan ∧
      (let plans' := db.plans.map (fun p =>
        if p.id == plan.id then { p with status := s, updatedAt := now, updatedBy := user.id }
        else p)
       let hist' := db.history ++
         [⟨plan.id, "STATUS_CHANGE", user.id,
           "Status changed from " ++ plan.status ++ " to " ++ s ++ ".", rev.comment⟩]
       match db.briefs.find? (fun b => b.id == briefId) with
       | none => db' = { db with plans := plans', history := hist' } ∧ res = ⟨s, none⟩
       | some brief =>
         let allPlans := plans'.filter (fun p => p.briefId == briefId)
         let approvedCount := (allPlans.filter (fun p => p.status == "APPROVED")).length
         let rejectedCount := (allPlans.filter (fun p => p.status == "REJECTED")).length
         let newBriefStatus :=
           if approvedCount == allPlans.length then "APPROVED"
           else if rejectedCount > 0 then "REJECTED"
           else brief.status
         db' = { db with
             briefs := db.briefs.map (fun b =>
               if b.id == brief.id then
                 { b with status := newBriefStatus, updatedAt := now, updatedBy := user.id }
               else b)
             plans := plans'
             history := hist' } ∧
           res = ⟨s, some newBriefStatus⟩) := by
  unfold review_plan at h
  cases hfind : db.plans.find? (fun p => p.id == planId && p.briefId == briefId) with
  | none => rw [hfind] at h; cases h
  | some plan =>
    rw [hfind] at h
    dsimp only [] at h
    rw [hst, hds] at h
    simp only [Option.isSome_some, Option.getD_some, beq_self_eq_true, Bool.not_true,
      Bool.false_and, Bool.true_and, Bool.and_true, Bool.not_false, Bool.true_or,
      Bool.or_true, Bool.not_or] at h
    simp only [if_true] at h
    refine ⟨plan, rfl, ?_⟩
    dsimp only [updatePlan] at h
    cases hbf : db.briefs.find? (fun b => b.id == briefId) with
    | none =>
      rw [hbf] at h
      cases h
      exact ⟨rfl, rfl⟩
    | some brief =>
      rw [hbf] at h
      dsimp only [] at h
      cases h
      exact ⟨rfl, rfl⟩

theorem mem_update_proj {β : Type} (l : List AgencyPlan) (pid : Nat)
    (g : AgencyPlan → AgencyPlan) (proj : AgencyPlan → β) (b : β)
    (hs : ∀ p, proj (g p) = b) :
    ∀ p ∈ l.map (fun p => if p.id == pid then g p else p), p.id = pid → proj p = b := by
  intro p hp hid
  obtain ⟨q, hq, rfl⟩ := List.mem_map.1 hp
  by_cases h2 : (q.id == pid) = true
  · simp only [h2, if_true]
    exact hs q
  · simp only [h2, if_false] at hid ⊢
    exact absurd hid (by simpa using h2)

theorem map_update_proj {β : Type} (l : List AgencyPlan) (pid : Nat)
    (g : AgencyPlan → AgencyPlan) (proj : AgencyPlan → β)
    (hs : ∀ p, proj (g p) = proj p) :
    (l.map (fun p => if p.id == pid then g p else p)).map proj = l.map proj := by
  rw [List.map_map]
  exact List.map_congr_left (fun p _ => by
    dsimp only [Function.comp]
    split
    · exact hs p
    · rfl)

theorem review_plan_status_some_role {db briefId planId rev user now db' res s}
    (h : review_plan db briefId planId rev user now = .ok (db', res))
    (hst : rev.status = some s) : user.role = "DS_GROUP" := by
  unfold review_plan at h
  cases hfind : db.plans.find? (fun p => p.id == planId && p.briefId == briefId) with
  | none => rw [hfind] at h; cases h
  | some plan =>
    rw [hfind] at h
    dsimp only [] at h
    rw [hst] at h
    simp only [Option.isSome_some, Bool.and_true] at h
    by_cases hds : (user.role == "DS_GROUP") = true
    · exact eq_of_beq hds
    · by_cases hperm : (!(user.role == "DS_GROUP"
          || user.role == "AGENCY" && user.agencyId == some plan.agencyId)) = true
      · rw [if_pos hperm] at h; cases h
      · rw [if_neg hperm] at h
        rw [if_pos (by simp [Bool.not_eq_true] at hds; simp [hds])] at h
        cases h

/-- C1 counterexample: a successful request-upload call on a plan that already
carries a flat artifact, a validated artifact and both mapping dicts leaves
all four fields populated — they are not reset to null. -/
theorem C1_counterexample :
    (match get_upload_url happyEnv cxDB1 1 1 agAUser with
     | .ok (db', _) =>
       match db'.plans.find? (fun p => p.id == 1) with
       | some p => p.flatFilePath.isSome && p.validatedColumnFilePath.isSome
           && p.aiMappings.isSome && p.humanMappings.isSome
       | none => false
     | .error _ => false) = true := by
  decide

/-- C1 (amended): a successful request-upload call persists the intended raw
path on the owned plan but leaves every plan's `flat_file_path`,
`validated_file_path`, `ai_mappings` and `human_mappings` exactly as they
were — it clears nothing. -/
theorem C1_upload_resets_nothing {env db briefId planId user db' r}
    (h : get_upload_url env db briefId planId user = .ok (db', r)) :
    db'.plans.map (fun p => p.flatFilePath) = db.plans.map (fun p => p.flatFilePath)
    ∧ db'.plans.map (fun p => p.validatedColumnFilePath)
        = db.plans.map (fun p => p.validatedColumnFilePath)
    ∧ db'.plans.map (fun p => p.aiMappings) = db.plans.map (fun p => p.aiMappings)
    ∧ db'.plans.map (fun p => p.humanMappings) = db.plans.map (fun p => p.humanMappings)
    ∧ ∃ plan, findOwnedPlan db briefId planId user = some plan ∧
        ∀ p ∈ db'.plans, p.id = plan.id → p.rawFilePath = some (rawPathFor briefId plan.id) := by
  obtain ⟨plan, hfind, hdb, -⟩ := get_upload_url_ok_inv h
  subst hdb
  refine ⟨map_update_proj _ _ _ _ (fun p => rfl), map_update_proj _ _ _ _ (fun p => rfl),
    map_update_proj _ _ _ _ (fun p => rfl), map_update_proj _ _ _ _ (fun p => rfl),
    plan, hfind, mem_update_proj _ _ _ _ _ (fun p => rfl)⟩

/-- Witness for the C1 amended theorem at a concrete successful call. -/
theorem C1_upload_resets_nothing_witness :
    c1ResultDB.plans.map (fun p => p.flatFilePath) = cxDB1.plans.map (fun p => p.flatFilePath) :=
  (C1_upload_resets_nothing (show get_upload_url happyEnv cxDB1 1 1 agAUser
      = .ok (c1ResultDB, c1ResultResp) from rfl)).1

/-- C7 counterexample: a successful request-upload call appends no
HistoryTrail entry at all (the history is unchanged), contradicting "every
operation appends exactly one entry". -/
theorem C7_counterexample :
    (match get_upload_url happyEnv cxDB1 1 1 agAUser with
     | .ok (db', _) => db'.history == cxDB1.history
     | .error _ => false) = true := by
  decide

/-- C7 (amended): update-columns, submit and review each append exactly one
HistoryTrail entry on success (review status-change entries record the
old→new status text), while request-upload and extract-columns append none. -/
theorem C7_history_per_operation :
    (∀ env db briefId planId user db' r,
        get_upload_url env db briefId planId user = .ok (db', r) → db'.history = db.history)
    ∧ (∀ env db briefId planId user env' db' r,
        extract_columns env db briefId planId user = .ok (env', db', r) →
          db'.history = db.history)
    ∧ (∀ env db briefId planId hm user now env' db' r,
        update_columns env db briefId planId hm user now = .ok (env', db', r) →
          ∃ e, db'.history = db.history ++ [e] ∧ e.action = "COLUMNS_UPDATED")
    ∧ (∀ db briefId payload user now db' r,
        submit_plan db briefId payload user now = .ok (db', r) →
          ∃ e, db'.history = db.history ++ [e] ∧ e.action = "PLAN_SUBMITTED")
    ∧ (∀ db briefId planId rev user now db' res,
        review_plan db briefId planId rev user now = .ok (db', res) →
          ∃ e oldPlan,
            db.plans.find? (fun p => p.id == planId && p.briefId == briefId) = some oldPlan ∧
            db'.history = db.history ++ [e] ∧
            (∀ s, rev.status = some s →
              e.action = "STATUS_CHANGE" ∧
              e.details = "Status changed from " ++ oldPlan.status ++ " to " ++ s ++ ".") ∧
            (rev.status = none → e.action = "COMMENT_ADDED")) := by
  refine ⟨?_, ?_, ?_, ?_, ?_⟩
  · intro env db briefId planId user db' r h
    obtain ⟨plan, hfind, hdb, -⟩ := get_upload_url_ok_inv h
    subst hdb
    rfl
  · intro env db briefId planId user env' db' r h
    obtain ⟨plan, rawBlob, rawWs, hfind, hatt, hlook, henv, hdb, hr⟩ := extract_columns_ok_inv h
    subst hdb
    rfl
  · intro env db briefId planId hm user now env' db' r h
    obtain ⟨plan, rawWs, hfind, hraw, henv, hdb, hr⟩ := update_columns_ok_inv h
    subst hdb
    exact ⟨_, rfl, rfl⟩
  · intro db briefId payload user now db' r h
    obtain ⟨plan, hfind, hdb, hr⟩ := submit_plan_ok_inv h
    subst hdb
    exact ⟨_, rfl, rfl⟩
  · intro db briefId planId rev user now db' res h
    cases hst : rev.status with
    | none =>
      obtain ⟨plan, hfind, hdb, hres⟩ := review_plan_comment_only_inv h hst
      subst hdb
      refine ⟨_, plan, hfind, rfl, ?_, fun _ => rfl⟩
      intro s hs
      cases hs
    | some s =>
      have hds := review_plan_status_some_role h hst
      obtain ⟨plan, hfind, hrest⟩ := review_plan_status_change_inv h hst hds
      cases hbf : db.briefs.find? (fun b => b.id == briefId) with
      | none =>
        rw [hbf] at hrest
        dsimp only [] at hrest
        obtain ⟨hdb, -⟩ := hrest
        subst hdb
        refine ⟨_, plan, hfind, rfl, ?_, ?_⟩
        · intro s' hs'
          injection hs' with hss
          subst hss
          exact ⟨rfl, rfl⟩
        · intro hnone
          cases hnone
      | some brief =>
        rw [hbf] at hrest
        dsimp only [] at hrest
        obtain ⟨hdb, -⟩ := hrest
        subst hdb
        refine ⟨_, plan, hfind, rfl, ?_, ?_⟩
        · intro s' hs'
          injection hs' with hss
          subst hss
          exact ⟨rfl, rfl⟩
        · intro hnone
          cases hnone

/-- Witness for the C7 amended theorem at a concrete successful submit. -/
theorem C7_history_per_operation_witness :
    ∃ e, c6db3.history = c6db2.history ++ [e] ∧ e.action = "PLAN_SUBMITTED" :=
  C7_history_per_operation.2.2.2.1 c6db2 1 ⟨none⟩ agAUser 2 c6db3 "PENDING_REVIEW"
    (show submit_plan c6db2 1 ⟨none⟩ agAUser 2 = .ok (c6db3, "PENDING_REVIEW") from rfl)

/-- C2 counterexample: an extract-columns call whose mapped target fields miss
every mandatory schema field still succeeds, records the flat artifact and the
AI mapping on the plan, and merely echoes the mandatory list in the response —
no 400 rejection listing the missing fields occurs. -/
theorem C2_counterexample :
    spec_missingMandatory happyEnv.schemaMandatory
        (transformSeniorApiResponse (mockSeniorApiExtract
          ("gs://" ++ bucketName ++ "/" ++ rawPathFor 1 1))).aiMappings ≠ []
    ∧ (match extract_columns happyEnv cxDB1 1 1 agAUser with
       | .ok (_, db', resp) =>
         (match db'.plans.find? (fun p => p.id == 1) with
          | some p => p.flatFilePath.isSome && p.aiMappings.isSome
          | none => false)
         && (resp.requiredColumns == happyEnv.schemaMandatory)
       | .error _ => false) = true := by
  exact ⟨by decide, by decide⟩

/-- C2 (amended): extract-columns performs no mandatory-coverage check — its
outcome and database effect are identical under any mandatory schema list,
which is only echoed in the response's `requiredColumns`. -/
theorem C2_no_mandatory_check (env : Env) (db : DB) (briefId planId : Nat) (user : User)
    (M : List String) :
    extract_columns { env with schemaMandatory := M } db briefId planId user =
      match extract_columns env db briefId planId user with
      | .ok (env', db', r) =>
        .ok ({ env' with schemaMandatory := M }, db', { r with requiredColumns := M })
      | .error e => .error e := by
  unfold extract_columns
  by_cases hrole : (user.role != "AGENCY") = true
  · simp only [if_pos hrole]
  · simp only [if_neg hrole]
    cases hfind : findOwnedPlan db briefId planId user with
    | none => simp only [hfind]
    | some plan =>
      simp only [hfind]
      have hdl : downloadRawWithFallback { env with schemaMandatory := M } briefId planId plan.id
          = downloadRawWithFallback env briefId planId plan.id := rfl
      rw [hdl]
      cases hatt : downloadRawWithFallback env briefId planId plan.id with
      | none => simp only [hatt]
      | some pair =>
        obtain ⟨b, w⟩ := pair
        simp only [hatt]
        by_cases hup : (!env.uploadOk) = true
        · simp only [if_pos hup]
        · simp only [if_neg hup]
          by_cases hsign : (!env.signOk) = true
          · simp only [if_pos hsign]
          · simp only [if_neg hsign]
            rfl

/-- C5 counterexample: reject then approve the same plan of a two-plan brief.
The brief stays `REJECTED` (the aggregation's fall-through keeps the old
status) although no plan is `REJECTED` any more, so the claimed iff-invariant
fails on a reachable store. -/
theorem C5_counterexample : Reachable c5db3 ∧ ¬ briefPlanInvariant c5db3 := by
  constructor
  · exact (((Reachable.init agencyDir).step
      (Step.createBrief
        (show create_brief (initDB agencyDir) c5brief dsUser 0 = .ok (c5db1, 1) from rfl))).step
      (Step.review (show reviewRequestWellFormed revReject = true from rfl)
        (show review_plan c5db1 1 1 revReject dsUser 1
          = .ok (c5db2, ⟨"REJECTED", some "REJECTED"⟩) from rfl))).step
      (Step.review (show reviewRequestWellFormed revApprove = true from rfl)
        (show review_plan c5db2 1 1 revApprove dsUser 2
          = .ok (c5db3, ⟨"APPROVED", some "REJECTED"⟩) from rfl))
  · decide

/-- C5 (amended): after each successful DS_GROUP status-changing review of a
plan under an existing brief, the brief's status is recomputed over the full
updated plan set — `APPROVED` if every plan is approved, else `REJECTED` if at
least one is rejected, else left unchanged. The iff-invariant over all
reachable stores does not hold (see the counterexample). -/
theorem C5_brief_aggregation {db : DB} {briefId planId : Nat} {rev : ReviewSubmissionRequest}
    {user : User} {now : Nat} {db' : DB} {res : ReviewResult} {s : String} {brief : Brief}
    (h : review_plan db briefId planId rev user now = .ok (db', res))
    (hst : rev.status = some s) (hds : user.role = "DS_GROUP")
    (hb : db.briefs.find? (fun b => b.id == briefId) = some brief) :
    ∃ plan, db.plans.find? (fun p => p.id == planId && p.briefId == briefId) = some plan ∧
      (let plans' := db.plans.map (fun p =>
        if p.id == plan.id then { p with status := s, updatedAt := now, updatedBy := user.id }
        else p)
       let allPlans := plans'.filter (fun p => p.briefId == briefId)
       let approvedCount := (allPlans.filter (fun p => p.status == "APPROVED")).length
       let rejectedCount := (allPlans.filter (fun p => p.status == "REJECTED")).length
       let newBriefStatus :=
         if approvedCount == allPlans.length then "APPROVED"
         else if rejectedCount > 0 then "REJECTED"
         else brief.status
       db'.briefs = db.briefs.map (fun b =>
         if b.id == brief.id then
           { b with status := newBriefStatus, updatedAt := now, updatedBy := user.id }
         else b)
       ∧ res.newBriefStatus = some newBriefStatus) := by
  obtain ⟨plan, hfind, hrest⟩ := review_plan_status_change_inv h hst hds
  rw [hb] at hrest
  dsimp only [] at hrest
  obtain ⟨hdb, hres⟩ := hrest
  subst hdb
  subst hres
  exact ⟨plan, hfind, rfl, rfl⟩

/-- Witness for the C5 amended theorem at the concrete approve-after-reject
review: all-approved fails, none rejected, so the brief status is left at
`REJECTED`. -/
theorem C5_brief_aggregation_witness :
    ∃ plan, c5db2.plans.find? (fun p => p.id == 1 && p.briefId == 1) = some plan ∧
      (let plans' := c5db2.plans.map (fun p =>
        if p.id == plan.id then
          { p with status := "APPROVED", updatedAt := 2, updatedBy := dsUser.id }
        else p)
       let allPlans := plans'.filter (fun p => p.briefId == 1)
       let approvedCount := (allPlans.filter (fun p => p.status == "APPROVED")).length
       let rejectedCount := (allPlans.filter (fun p => p.status == "REJECTED")).length
       let newBriefStatus :=
         if approvedCount == allPlans.length then "APPROVED"
         else if rejectedCount > 0 then "REJECTED"
         else c5briefAfterReject.status
       c5db3.briefs = c5db2.briefs.map (fun b =>
         if b.id == c5briefAfterReject.id then
           { b with status := newBriefStatus, updatedAt := 2, updatedBy := dsUser.id }
         else b)
       ∧ (⟨"APPROVED", some "REJECTED"⟩ : ReviewResult).newBriefStatus = some newBriefStatus) :=
  C5_brief_aggregation
    (show review_plan c5db2 1 1 revApprove dsUser 2
      = .ok (c5db3, ⟨"APPROVED", some "REJECTED"⟩) from rfl)
    rfl rfl
    (show c5db2.briefs.find? (fun b => b.id == 1) = some c5briefAfterReject from rfl)

/-- C6 counterexample: a reachable store holds plan 1 with status `APPROVED`;
one further submit request moves it to `PENDING_REVIEW` — `APPROVED` is not a
terminal state. -/
theorem C6_counterexample :
    Reachable c6db2 ∧ Step c6db2 c6db3
    ∧ ((c6db2.plans.find? (fun p => p.id == 1)).map (fun p => p.status) = some "APPROVED")
    ∧ ((c6db3.plans.find? (fun p => p.id == 1)).map (fun p => p.status) = some "PENDING_REVIEW")
    ∧ ("PENDING_REVIEW" : String) ≠ "APPROVED" := by
  refine ⟨?_, ?_, by decide, by decide, by decide⟩
  · exact ((Reachable.init agencyDir).step
      (Step.createBrief
        (show create_brief (initDB agencyDir) c5brief dsUser 0 = .ok (c5db1, 1) from rfl))).step
      (Step.review (show reviewRequestWellFormed revApprove = true from rfl)
        (show review_plan c5db1 1 1 revApprove dsUser 1
          = .ok (c6db2, ⟨"APPROVED", some "ACTIVE"⟩) from rfl))
  · exact Step.submit
      (show submit_plan c6db2 1 ⟨none⟩ agAUser 2 = .ok (c6db3, "PENDING_REVIEW") from rfl)

/-- C6 (amended): `APPROVED` and `REJECTED` are not terminal — a successful
submit always moves the matched plan to `PENDING_REVIEW` and a successful
status-changing review always sets the matched plan to the requested status,
regardless of the plan's current status. -/
theorem C6_terminal_states_not_enforced :
    (∀ db briefId payload user now db' r,
        submit_plan db briefId payload user now = .ok (db', r) →
          ∃ plan,
            db.plans.find? (fun p => p.briefId == briefId && some p.agencyId == user.agencyId)
              = some plan ∧
            ∀ p ∈ db'.plans, p.id = plan.id → p.status = "PENDING_REVIEW")
    ∧ (∀ db briefId planId rev user now db' res s,
        review_plan db briefId planId rev user now = .ok (db', res) → rev.status = some s →
          ∃ plan,
            db.plans.find? (fun p => p.id == planId && p.briefId == briefId) = some plan ∧
            ∀ p ∈ db'.plans, p.id = plan.id → p.status = s) := by
  constructor
  · intro db briefId payload user now db' r h
    obtain ⟨plan, hfind, hdb, -⟩ := submit_plan_ok_inv h
    subst hdb
    exact ⟨plan, hfind, mem_update_proj _ _ _ _ _ (fun p => rfl)⟩
  · intro db briefId planId rev user now db' res s h hs
    have hds := review_plan_status_some_role h hs
    obtain ⟨plan, hfind, hrest⟩ := review_plan_status_change_inv h hs hds
    cases hbf : db.briefs.find? (fun b => b.id == briefId) with
    | none =>
      rw [hbf] at hrest
      dsimp only [] at hrest
      obtain ⟨hdb, -⟩ := hrest
      subst hdb
      exact ⟨plan, hfind, mem_update_proj _ _ _ _ _ (fun p => rfl)⟩
    | some brief =>
      rw [hbf] at hrest
      dsimp only [] at hrest
      obtain ⟨hdb, -⟩ := hrest
      subst hdb
      exact ⟨plan, hfind, mem_update_proj _ _ _ _ _ (fun p => rfl)⟩

/-- Witness for the C6 amended theorem: submitting over an `APPROVED` plan. -/
theorem C6_terminal_states_not_enforced_witness :
    ∃ plan, c6db2.plans.find?
        (fun p => p.briefId == 1 && some p.agencyId == agAUser.agencyId) = some plan ∧
      ∀ p ∈ c6db3.plans, p.id = plan.id → p.status = "PENDING_REVIEW" :=
  C6_terminal_states_not_enforced.1 c6db2 1 ⟨none⟩ agAUser 2 c6db3 "PENDING_REVIEW"
    (show submit_plan c6db2 1 ⟨none⟩ agAUser 2 = .ok (c6db3, "PENDING_REVIEW") from rfl)

theorem lookupFile_putFile (env : Env) (path : String) (ws : Worksheet) :
    (env.putFile path ws).lookupFile path = some ws := by
  simp [Env.putFile, Env.lookupFile]

/-- C8 counterexample: a successful update-columns call stores the validated
artifact at `.../validated/plan_final.xlsx`, not at the claimed
`.../validated-columns/plan_final.xlsx` blob path. -/
theorem C8_counterexample :
    (match update_columns happyEnv cxDB1 1 1 c8Hm agAUser 5 with
     | .ok (_, db', _) =>
       match db'.plans.find? (fun p => p.id == 1) with
       | some p => p.validatedColumnFilePath == some (validatedPathFor 1 1)
       | none => false
     | .error _ => false) = true
    ∧ validatedPathFor 1 1 ≠ "brief_media_files/1/1/validated-columns/plan_final.xlsx" := by
  exact ⟨by decide, by decide⟩

/-- C8 (amended): update-columns re-downloads the *raw* artifact, re-runs the
Transformer on it with `header_row = 4` (so the top three rows are cropped
again), and stores the result at
`{root}/{brief_id}/{plan_id}/validated/plan_final.xlsx`. -/
theorem C8_update_columns_raw_header4 {env db briefId planId hm user now env' db' r}
    (h : update_columns env db briefId planId hm user now = .ok (env', db', r)) :
    ∃ plan rawWs,
      findOwnedPlan db briefId planId user = some plan ∧
      env.lookupFile (rawPathFor briefId plan.id) = some rawWs ∧
      env'.lookupFile (validatedPathFor briefId plan.id) =
        some (processExcelExtract rawWs 4
          (hm.foldl (fun d p => if p.2 != "" then dictInsert d p.1 p.2 else d)
            (plan.aiMappings.getD []))) ∧
      ∀ p ∈ db'.plans, p.id = plan.id →
        p.validatedColumnFilePath = some (validatedPathFor briefId plan.id) := by
  obtain ⟨plan, rawWs, hfind, hraw, henv, hdb, -⟩ := update_columns_ok_inv h
  subst henv
  subst hdb
  exact ⟨plan, rawWs, hfind, hraw, lookupFile_putFile _ _ _,
    mem_update_proj _ _ _ _ _ (fun p => rfl)⟩

/-- Witness for the C8 amended theorem at a concrete successful call. -/
theorem C8_update_columns_raw_header4_witness :
    ∃ plan rawWs,
      findOwnedPlan cxDB1 1 1 agAUser = some plan ∧
      happyEnv.lookupFile (rawPathFor 1 plan.id) = some rawWs ∧
      c8ResultEnv.lookupFile (validatedPathFor 1 plan.id) =
        some (processExcelExtract rawWs 4
          (c8Hm.foldl (fun d p => if p.2 != "" then dictInsert d p.1 p.2 else d)
            (plan.aiMappings.getD []))) ∧
      ∀ p ∈ c8ResultDB.plans, p.id = plan.id →
        p.validatedColumnFilePath = some (validatedPathFor 1 plan.id) :=
  C8_update_columns_raw_header4
    (show update_columns happyEnv cxDB1 1 1 c8Hm agAUser 5
      = .ok (c8ResultEnv, c8ResultDB, c8ResultResp) from rfl)

/-- C9 counterexample: with the storage client uninitialised (and the backend
failing outright), signed-URL issuance returns a mock unsigned URL as a
*successful* result instead of a `StorageOperationFailed` error. -/
theorem C9_counterexample :
    (Gcs.get_signed_url ⟨none, 0⟩ "plans/plan.xlsx" none false
        (fun _ => .error "network unreachable")).1
      = .ok ("https://storage.googleapis.com/" ++ bucketName
          ++ "/plans/plan.xlsx?mock_sig=true") := rfl

/-- C9 (amended): upload/download/read/list/delete report any underlying
failure — including an uninitialised client — as a single GCSOperationError
kind carrying the causing message, with exactly one backend attempt (no
retry); signed-URL issuance instead returns a mock URL as a success when the
client is uninitialised, and on the IAM signing path falls back once to
default signing before reporting GCSOperationError. -/
theorem C9_gateway_failure_reporting :
    (∀ st backend, st.client = none →
        Gcs.upload_file st backend = (.error ("Upload failed: " ++ gcsErrNotInit), st)
        ∧ Gcs.download_file st backend = (.error ("Download failed: " ++ gcsErrNotInit), st)
        ∧ Gcs.read_file st backend = (.error ("Read file failed: " ++ gcsErrNotInit), st)
        ∧ Gcs.list_blobs st backend = (.error ("List blobs failed: " ++ gcsErrNotInit), st)
        ∧ Gcs.delete_blob st backend = (.error ("Delete blob failed: " ++ gcsErrNotInit), st))
    ∧ (∀ st backend e, st.client = some () → backend st.calls = .error e →
        Gcs.upload_file st backend
          = (.error ("Upload failed: " ++ e), { st with calls := st.calls + 1 })
        ∧ Gcs.download_file st backend
          = (.error ("Download failed: " ++ e), { st with calls := st.calls + 1 })
        ∧ Gcs.read_file st backend
          = (.error ("Read file failed: " ++ e), { st with calls := st.calls + 1 })
        ∧ Gcs.list_blobs st backend
          = (.error ("List blobs failed: " ++ e), { st with calls := st.calls + 1 })
        ∧ Gcs.delete_blob st backend
          = (.error ("Delete blob failed: " ++ e), { st with calls := st.calls + 1 }))
    ∧ (∀ st blob sa creds backend, st.client = none →
        Gcs.get_signed_url st blob sa creds backend =
          (.ok ("https://storage.googleapis.com/" ++ bucketName ++ "/" ++ blob
            ++ "?mock_sig=true"), st))
    ∧ (∀ st blob creds backend e, st.client = some () → backend st.calls = .error e →
        Gcs.get_signed_url st blob none creds backend =
          (.error ("Signed URL generation failed: " ++ e), { st with calls := st.calls + 1 }))
    ∧ (∀ st blob email backend e1 e2, st.client = some () →
        backend st.calls = .error e1 → backend (st.calls + 1) = .error e2 →
        Gcs.get_signed_url st blob (some email) false backend =
          (.error ("Signed URL generation failed: " ++ e2), { st with calls := st.calls + 2 })) := by
  refine ⟨?_, ?_, ?_, ?_, ?_⟩
  · intro st backend hcl
    refine ⟨?_, ?_, ?_, ?_, ?_⟩ <;>
      simp only [Gcs.upload_file, Gcs.download_file, Gcs.read_file, Gcs.list_blobs,
        Gcs.delete_blob, hcl]
  · intro st backend e hcl hback
    refine ⟨?_, ?_, ?_, ?_, ?_⟩ <;>
      simp only [Gcs.upload_file, Gcs.download_file, Gcs.read_file, Gcs.list_blobs,
        Gcs.delete_blob, hcl, hback]
  · intro st blob sa creds backend hcl
    simp only [Gcs.get_signed_url, hcl]
  · intro st blob creds backend e hcl hback
    simp only [Gcs.get_signed_url, hcl, hback, Option.isSome_none, Bool.false_and,
      Bool.false_eq_true, if_false]
  · intro st blob email backend e1 e2 hcl hback1 hback2
    simp only [Gcs.get_signed_url, hcl, hback1, hback2, Option.isSome_some,
      Bool.not_false, Bool.and_self, Bool.true_and, Bool.and_true, if_true]

/-- Witness for the C9 amended theorem: upload with an uninitialised client. -/
theorem C9_gateway_failure_reporting_witness :
    Gcs.upload_file ⟨none, 0⟩ (fun _ => .error "boom")
      = (.error ("Upload failed: " ++ gcsErrNotInit), (⟨none, 0⟩ : GcsState)) :=
  (C9_gateway_failure_reporting.1 ⟨none, 0⟩ (fun _ => .error "boom") rfl).1

/-- C10 (confirmed): a successful comment-only review (comment present, no
status) leaves every brief untouched (no aggregation runs), leaves every
plan's status unchanged, and appends exactly one `COMMENT_ADDED` history entry
carrying the comment. Plan primary keys are assumed unique, as in the
database. -/
theorem C10_comment_only_review {db briefId planId rev user now db' res}
    (h : review_plan db briefId planId rev user now = .ok (db', res))
    (hst : rev.status = none) (hc : rev.comment.isSome = true)
    (hids : (db.plans.map (fun p => p.id)).Nodup) :
    db'.briefs = db.briefs
    ∧ db'.plans.map (fun p => p.status) = db.plans.map (fun p => p.status)
    ∧ ∃ e, db'.history = db.history ++ [e] ∧ e.action = "COMMENT_ADDED"
        ∧ e.comment = rev.comment := by
  obtain ⟨plan, hfind, hdb, -⟩ := review_plan_comment_only_inv h hst
  have hplanMem : plan ∈ db.plans := List.mem_of_find?_eq_some hfind
  subst hdb
  refine ⟨rfl, ?_, _, rfl, rfl, rfl⟩
  show (db.plans.map (fun p =>
      if p.id == plan.id then
        { p with status := plan.status, updatedAt := now, updatedBy := user.id }
      else p)).map (fun p => p.status) = db.plans.map (fun p => p.status)
  rw [List.map_map]
  refine List.map_congr_left (fun q hq => ?_)
  dsimp only [Function.comp]
  split
  · rename_i hqid
    have hqp : q = plan :=
      List.inj_on_of_nodup_map hids hq hplanMem (eq_of_beq hqid)
    rw [hqp]
  · rfl

/-- Witness for C10 at a concrete comment-only review by the owning agency. -/
theorem C10_comment_only_review_witness :
    c10ResultDB.briefs = cxDB1.briefs
    ∧ c10ResultDB.plans.map (fun p => p.status) = cxDB1.plans.map (fun p => p.status)
    ∧ ∃ e, c10ResultDB.history = cxDB1.history ++ [e] ∧ e.action = "COMMENT_ADDED"
        ∧ e.comment = c10rev.comment :=
  C10_comment_only_review
    (show review_plan cxDB1 1 1 c10rev agAUser 7 = .ok (c10ResultDB, c10ResultRes) from rfl)
    rfl rfl (by decide)

end BriefBackend
